import Mathlib

/-!
Verification of the star-map core of the space-map-explorer repository.

The definitions below are a shallow embedding of the `StarMap` class in
src/starMap.js: JavaScript numbers are modelled as real numbers, the
mutable fields of the class become a `StarMapState` record that operations
transform functionally, and the canvas-drawing calls (which never feed
back into the state) are omitted.
-/

open Real

namespace StarMapJS

/-- A catalog star as produced by generateStarCatalog / generateRandomStars:
`\x7b name, ra, dec, mag \x7d` with ra in hours, dec in degrees. -/
structure Star where
  name : String
  ra : ℝ
  dec : ℝ
  mag : ℝ

/-- A plotted object as pushed by plotObject: `\x7b name, ra, dec, type \x7d`. -/
structure PlottedObject where
  name : String
  ra : ℝ
  dec : ℝ
  type : String

/-- A constellation line as pushed by generateConstellationLines:
`\x7b star1, star2 \x7d`. -/
structure Edge where
  star1 : Star
  star2 : Star

/-- The result of raDecToCanvas: a point `\x7b x, y \x7d` in canvas pixels. -/
structure ScreenPoint where
  x : ℝ
  y : ℝ

/-- The mutable state of a StarMap instance: canvas dimensions plus the
view-state fields set in the constructor (zoom, panX, panY,
showConstellations, stars, plottedObjects, constellations). -/
structure StarMapState where
  width : ℝ
  height : ℝ
  zoom : ℝ
  panX : ℝ
  panY : ℝ
  showConstellations : Bool
  stars : List Star
  plottedObjects : List PlottedObject
  constellations : List Edge

/-- raDecToCanvas(ra, dec) from src/starMap.js lines 120-134: converts
RA (hours) and Dec (degrees) to canvas coordinates using the current
viewport state. -/
noncomputable def raDecToCanvas (s : StarMapState) (ra dec : ℝ) : ScreenPoint :=
  let centerX := s.width / 2
  let centerY := s.height / 2
  let raRad := (ra * 15 - 180) * Real.pi / 180
  let decRad := dec * Real.pi / 180
  let cosDec := Real.cos decRad
  { x := centerX + s.panX + (Real.sin raRad * cosDec * s.width * s.zoom * 0.4)
    y := centerY + s.panY - (Real.cos raRad * cosDec * s.width * s.zoom * 0.4) }

/-- Modelled from the spec: the projection formula exactly as written in
section 4.2 of the design document, to be compared with `raDecToCanvas`. -/
noncomputable def projectSpec (s : StarMapState) (ra dec : ℝ) : ScreenPoint :=
  { x := s.width / 2 + s.panX +
      Real.sin ((ra * 15 - 180) * Real.pi / 180) * Real.cos (dec * Real.pi / 180) *
        s.width * s.zoom * 0.4
    y := s.height / 2 + s.panY -
      Real.cos ((ra * 15 - 180) * Real.pi / 180) * Real.cos (dec * Real.pi / 180) *
        s.width * s.zoom * 0.4 }

/-- raDecToCanvas reads the state and returns a point without writing any
field; modelling the call as returning the (unchanged) state alongside the
point makes that absence of mutation explicit. -/
noncomputable def projectCall (s : StarMapState) (ra dec : ℝ) :
    ScreenPoint × StarMapState :=
  (raDecToCanvas s ra dec, s)

/-- isPointVisible(pos) from src/starMap.js lines 315-318, with the canvas
dimensions it reads made explicit parameters. -/
def isPointVisible (pos : ScreenPoint) (w h : ℝ) : Prop :=
  pos.x > -50 ∧ pos.x < w + 50 ∧ pos.y > -50 ∧ pos.y < h + 50

/-- plotObject(name, ra, dec, type) from src/starMap.js lines 206-219:
drops any existing entry with the same name, appends the new object, then
recenters pan on the object's screen position computed with the CURRENT
zoom, and finally sets zoom to 2. -/
noncomputable def plotObject (s : StarMapState) (name : String) (ra dec : ℝ)
    (type : String) : StarMapState :=
  let objs := s.plottedObjects.filter (fun o => o.name != name) ++
    [{ name := name, ra := ra, dec := dec, type := type }]
  let pos := raDecToCanvas s ra dec
  { s with
    plottedObjects := objs
    panX := -pos.x + s.width / 2
    panY := -pos.y + s.height / 2
    zoom := 2 }

/-- clearPlottedObjects() from src/starMap.js lines 222-225. -/
def clearPlottedObjects (s : StarMapState) : StarMapState :=
  { s with plottedObjects := [] }

/-- resetView() from src/starMap.js lines 320-325. -/
def resetView (s : StarMapState) : StarMapState :=
  { s with zoom := 1, panX := 0, panY := 0 }

/-- A concrete viewport in its constructor-initial view state (zoom 1,
pan 0, constellations shown, nothing plotted) on a 1000 by 600 canvas. -/
def demoState : StarMapState :=
  { width := 1000
    height := 600
    zoom := 1
    panX := 0
    panY := 0
    showConstellations := true
    stars := []
    plottedObjects := []
    constellations := [] }

/-- C5: raDecToCanvas returns exactly the point prescribed by the spec
formula: x = centerX + panX + sin(raRad) cos(decRad) width zoom 0.4 and
y = centerY + panY - cos(raRad) cos(decRad) width zoom 0.4 with
raRad = (ra 15 - 180) pi/180 and decRad = dec pi/180. -/
theorem raDecToCanvas_eq_projectSpec (s : StarMapState) (ra dec : ℝ) :
    raDecToCanvas s ra dec = projectSpec s ra dec := rfl

/-- C9: both celestial poles, at every right ascension, project to the
single point (centerX + panX, centerY + panY): cos(decRad) vanishes at
dec = 90 and dec = -90, killing both trigonometric terms. -/
theorem raDecToCanvas_pole_collapse (s : StarMapState) (ra1 ra2 : ℝ) :
    raDecToCanvas s ra1 90 =
        { x := s.width / 2 + s.panX, y := s.height / 2 + s.panY } ∧
      raDecToCanvas s ra2 90 =
        { x := s.width / 2 + s.panX, y := s.height / 2 + s.panY } ∧
      raDecToCanvas s ra1 (-90) =
        { x := s.width / 2 + s.panX, y := s.height / 2 + s.panY } ∧
      raDecToCanvas s ra2 (-90) =
        { x := s.width / 2 + s.panX, y := s.height / 2 + s.panY } := by
  have hp : ((90 : ℝ)) * Real.pi / 180 = Real.pi / 2 := by ring
  have hn : ((-90 : ℝ)) * Real.pi / 180 = -(Real.pi / 2) := by ring
  have hcp : Real.cos ((90 : ℝ) * Real.pi / 180) = 0 := by
    rw [hp, Real.cos_pi_div_two]
  have hcn : Real.cos ((-90 : ℝ) * Real.pi / 180) = 0 := by
    rw [hn, Real.cos_neg, Real.cos_pi_div_two]
  refine ⟨?_, ?_, ?_, ?_⟩ <;>
    simp only [raDecToCanvas, hcp, hcn] <;>
    congr 1 <;> ring

/-- C8: projecting is deterministic (equal coordinates and equal viewport
states give the identical screen point) and leaves the viewport state
unchanged. -/
theorem projectCall_deterministic_pure (s s' : StarMapState) (ra dec ra' dec' : ℝ)
    (hs : s = s') (hra : ra = ra') (hdec : dec = dec') :
    (projectCall s ra dec).1 = (projectCall s' ra' dec').1 ∧
      (projectCall s ra dec).2 = s := by
  subst hs hra hdec
  exact ⟨rfl, rfl⟩

/-- Witness for C8 at a concrete viewport and coordinate pair. -/
theorem projectCall_deterministic_pure_witness :
    (projectCall demoState 6.75 (-16.7)).1 = (projectCall demoState 6.75 (-16.7)).1 ∧
      (projectCall demoState 6.75 (-16.7)).2 = demoState :=
  projectCall_deterministic_pure demoState demoState 6.75 (-16.7) 6.75 (-16.7)
    rfl rfl rfl

/-- C10: clearPlottedObjects empties the plotted-object list and changes
nothing else: zoom, pan, the constellation flag, the star catalog and the
constellation graph are all preserved. -/
theorem clearPlottedObjects_frame (s : StarMapState) :
    (clearPlottedObjects s).plottedObjects = [] ∧
      (clearPlottedObjects s).zoom = s.zoom ∧
      (clearPlottedObjects s).panX = s.panX ∧
      (clearPlottedObjects s).panY = s.panY ∧
      (clearPlottedObjects s).showConstellations = s.showConstellations ∧
      (clearPlottedObjects s).stars = s.stars ∧
      (clearPlottedObjects s).constellations = s.constellations ∧
      (clearPlottedObjects s).width = s.width ∧
      (clearPlottedObjects s).height = s.height :=
  ⟨rfl, rfl, rfl, rfl, rfl, rfl, rfl, rfl, rfl⟩

/-- C7: isPointVisible holds exactly when the point is strictly inside the
canvas rectangle enlarged by a 50-pixel margin on every side; in particular
on a positive-size canvas it holds at the canvas center and fails at
(-1000, -1000), and the answer never consults the zoom factor. -/
theorem isPointVisible_margin (p : ScreenPoint) (w h : ℝ)
    (hw : 0 < w) (hh : 0 < h) :
    (isPointVisible p w h ↔
        (-50 < p.x ∧ p.x < w + 50 ∧ -50 < p.y ∧ p.y < h + 50)) ∧
      isPointVisible { x := w / 2, y := h / 2 } w h ∧
      ¬ isPointVisible { x := -1000, y := -1000 } w h := by
  refine ⟨Iff.rfl, ⟨?_, ?_, ?_, ?_⟩, ?_⟩
  · linarith
  · linarith
  · linarith
  · linarith
  · intro hvis
    have hx := hvis.1
    norm_num at hx

/-- Witness for C7 on a 1000 by 600 canvas. -/
theorem isPointVisible_margin_witness :
    (isPointVisible { x := (1000 : ℝ) / 2, y := (600 : ℝ) / 2 } 1000 600) ∧
      ¬ isPointVisible { x := -1000, y := -1000 } (1000 : ℝ) 600 :=
  ⟨(isPointVisible_margin { x := (1000 : ℝ) / 2, y := (600 : ℝ) / 2 } 1000 600
      (by norm_num) (by norm_num)).2.1,
    (isPointVisible_margin { x := (1000 : ℝ) / 2, y := (600 : ℝ) / 2 } 1000 600
      (by norm_num) (by norm_num)).2.2⟩

/-- Counterexample to C2: on a 1000 by 600 canvas with zoom 1 and pan
(0, 0), projecting RA = 12 h, Dec = 0 deg gives (500, -100): the
x-coordinate is the canvas center but the y-coordinate is 400 pixels
above it, because cos(raRad) = 1 there, not 0. -/
theorem raDecToCanvas_center_counterexample :
    raDecToCanvas demoState 12 0 = { x := 500, y := -100 } ∧
      raDecToCanvas demoState 12 0 ≠
        { x := demoState.width / 2, y := demoState.height / 2 } := by
  have hra : ((12 : ℝ) * 15 - 180) * Real.pi / 180 = 0 := by norm_num
  have hdec : ((0 : ℝ)) * Real.pi / 180 = 0 := by norm_num
  have hval : raDecToCanvas demoState 12 0 = { x := 500, y := -100 } := by
    simp only [raDecToCanvas, demoState, hra, hdec, Real.sin_zero, Real.cos_zero]
    congr 1 <;> norm_num
  refine ⟨hval, ?_⟩
  rw [hval]
  intro hcontra
  have hy : (-100 : ℝ) = 600 / 2 := congrArg ScreenPoint.y hcontra
  norm_num at hy

/-- C2 amended: with zoom 1 and pan (0, 0), projecting RA = 12 h,
Dec = 0 deg returns x exactly at the canvas center but y exactly
0.4 canvasWidth below the center in sky terms (i.e. centerY minus
0.4 canvasWidth), not the canvas center itself. -/
theorem raDecToCanvas_ra12_dec0 (s : StarMapState)
    (hz : s.zoom = 1) (hx : s.panX = 0) (hy : s.panY = 0) :
    raDecToCanvas s 12 0 =
      { x := s.width / 2, y := s.height / 2 - s.width * 0.4 } := by
  have hra : ((12 : ℝ) * 15 - 180) * Real.pi / 180 = 0 := by norm_num
  have hdec : ((0 : ℝ)) * Real.pi / 180 = 0 := by norm_num
  simp only [raDecToCanvas, hra, hdec, Real.sin_zero, Real.cos_zero, hz, hx, hy]
  congr 1 <;> ring

/-- Witness for the amended C2 at the concrete initial viewport. -/
theorem raDecToCanvas_ra12_dec0_witness :
    raDecToCanvas demoState 12 0 =
      { x := demoState.width / 2,
        y := demoState.height / 2 - demoState.width * 0.4 } :=
  raDecToCanvas_ra12_dec0 demoState rfl rfl rfl

/-- C1: plotObject does set zoom to 2, but it does NOT leave the plotted
object at the canvas center: pan is computed from the screen position at
the OLD zoom, and the subsequent change of zoom to 2 moves the point.
On the initial viewport (zoom 1, pan 0, 1000 by 600 canvas), after
plotObject at RA = 18 h, Dec = 0 deg, re-projecting those coordinates
gives x = 900 while the canvas center is at x = 500. -/
theorem plotObject_not_centered :
    (plotObject demoState ("Target") 18 0 ("Star")).zoom = 2 ∧
      raDecToCanvas (plotObject demoState ("Target") 18 0 ("Star")) 18 0 =
        { x := 900, y := 300 } ∧
      ({ x := demoState.width / 2, y := demoState.height / 2 } : ScreenPoint) =
        { x := 500, y := 300 } ∧
      (900 : ℝ) ≠ 500 := by
  have hra : ((18 : ℝ) * 15 - 180) * Real.pi / 180 = Real.pi / 2 := by ring
  have hdec : ((0 : ℝ)) * Real.pi / 180 = 0 := by norm_num
  refine ⟨rfl, ?_, ?_, by norm_num⟩
  · simp only [plotObject, raDecToCanvas, demoState, hra, hdec,
      Real.sin_pi_div_two, Real.cos_pi_div_two, Real.cos_zero]
    congr 1 <;> norm_num
  · simp only [demoState]
    congr 1 <;> norm_num

/-- The discrete operations that mutate the viewport or the plotted-object
list: a wheel tick (deltaY positive or not), the two zoom buttons, plus the
plotObject, clearPlottedObjects, resetView, mouse-drag pan and
toggleConstellations actions, all from src/starMap.js. -/
inductive Op where
  | wheel : Bool → Op
  | zoomInBtn : Op
  | zoomOutBtn : Op
  | plot : String → ℝ → ℝ → String → Op
  | clear : Op
  | reset : Op
  | pan : ℝ → ℝ → Op
  | toggle : Op

/-- One step of the event handlers in src/starMap.js: the wheel handler
multiplies the zoom by 0.9 or 1.1 and clamps to [0.5, 5]; the zoom-in
button sets min(5, zoom times 1.2); the zoom-out button sets
max(0.5, zoom / 1.2); drag deltas add to pan; the remaining operations
delegate to the corresponding methods. -/
noncomputable def applyOp (s : StarMapState) : Op → StarMapState
  | Op.wheel deltaYPos =>
      let zoomFactor : ℝ := if deltaYPos then 0.9 else 1.1
      { s with zoom := max 0.5 (min 5 (s.zoom * zoomFactor)) }
  | Op.zoomInBtn => { s with zoom := min 5 (s.zoom * 1.2) }
  | Op.zoomOutBtn => { s with zoom := max 0.5 (s.zoom / 1.2) }
  | Op.plot n ra dec t => plotObject s n ra dec t
  | Op.clear => clearPlottedObjects s
  | Op.reset => resetView s
  | Op.pan dx dy => { s with panX := s.panX + dx, panY := s.panY + dy }
  | Op.toggle => { s with showConstellations := !s.showConstellations }

lemma applyOp_zoom_bounds (s : StarMapState) (op : Op)
    (h1 : 0.5 ≤ s.zoom) (h2 : s.zoom ≤ 5) :
    0.5 ≤ (applyOp s op).zoom ∧ (applyOp s op).zoom ≤ 5 := by
  cases op with
  | wheel d =>
      refine ⟨le_max_left _ _, max_le (by norm_num) (min_le_left _ _)⟩
  | zoomInBtn =>
      refine ⟨le_min (by norm_num) (by nlinarith), min_le_left _ _⟩
  | zoomOutBtn =>
      have hub : s.zoom / 1.2 ≤ 5 := by
        rw [div_le_iff₀ (by norm_num : (0 : ℝ) < 1.2)]
        linarith
      exact ⟨le_max_left _ _, max_le (by norm_num) hub⟩
  | plot n ra dec t =>
      have hz : (applyOp s (Op.plot n ra dec t)).zoom = 2 := rfl
      rw [hz]
      norm_num
  | clear => exact ⟨h1, h2⟩
  | reset =>
      have hz : (applyOp s Op.reset).zoom = 1 := rfl
      rw [hz]
      norm_num
  | pan dx dy => exact ⟨h1, h2⟩
  | toggle => exact ⟨h1, h2⟩

lemma foldl_applyOp_zoom_bounds (ops : List Op) :
    ∀ s : StarMapState, 0.5 ≤ s.zoom → s.zoom ≤ 5 →
      0.5 ≤ (ops.foldl applyOp s).zoom ∧ (ops.foldl applyOp s).zoom ≤ 5 := by
  induction ops with
  | nil => intro s h1 h2; exact ⟨h1, h2⟩
  | cons op ops ih =>
      intro s h1 h2
      have h := applyOp_zoom_bounds s op h1 h2
      exact ih (applyOp s op) h.1 h.2

/-- C4: starting from any state with the constructor-initial zoom of 1,
after any finite sequence of wheel ticks, zoom-button presses, plots,
clears, resets, pans and toggles, the zoom factor stays in [0.5, 5]. -/
theorem zoom_always_clamped (s : StarMapState) (hinit : s.zoom = 1)
    (ops : List Op) :
    0.5 ≤ (ops.foldl applyOp s).zoom ∧ (ops.foldl applyOp s).zoom ≤ 5 :=
  foldl_applyOp_zoom_bounds ops s (by rw [hinit]; norm_num)
    (by rw [hinit]; norm_num)

/-- Witness for C4: a wheel zoom-out tick followed by a zoom-in button
press and a plot, starting from the concrete initial viewport. -/
theorem zoom_always_clamped_witness :
    0.5 ≤ (List.foldl applyOp demoState
        [Op.wheel true, Op.zoomInBtn, Op.plot ("Vega") 18.62 38.8 ("Star")]).zoom ∧
      (List.foldl applyOp demoState
        [Op.wheel true, Op.zoomInBtn, Op.plot ("Vega") 18.62 38.8 ("Star")]).zoom ≤ 5 :=
  zoom_always_clamped demoState rfl
    [Op.wheel true, Op.zoomInBtn, Op.plot ("Vega") 18.62 38.8 ("Star")]

/-- The at-most-one-entry-per-name property of the plotted-object list. -/
def distinctNames (l : List PlottedObject) : Prop :=
  l.Pairwise (fun a b => a.name ≠ b.name)

lemma filter_name_after_remove (l : List PlottedObject) (n : String) :
    (l.filter fun o => o.name != n).filter (fun o => o.name == n) = [] := by
  rw [List.filter_eq_nil_iff]
  intro o ho
  have hne := (List.mem_filter.mp ho).2
  simp only [bne_iff_ne, ne_eq] at hne
  simp [hne]

lemma distinctNames_remove (l : List PlottedObject) (n : String)
    (h : distinctNames l) : distinctNames (l.filter fun o => o.name != n) :=
  List.Pairwise.filter _ h

/-- C6: plotObject leaves exactly one entry carrying the plotted name, and
it is the entry of the most recent call; moreover the
at-most-one-entry-per-name invariant of the plotted-object list is
preserved by every operation. -/
theorem plottedObjects_unique_per_name :
    (∀ (s : StarMapState) (n : String) (ra dec : ℝ) (t : String),
        (plotObject s n ra dec t).plottedObjects.filter (fun o => o.name == n) =
          [{ name := n, ra := ra, dec := dec, type := t }]) ∧
      (∀ (s : StarMapState) (op : Op),
        distinctNames s.plottedObjects →
          distinctNames (applyOp s op).plottedObjects) := by
  constructor
  · intro s n ra dec t
    simp only [plotObject, List.filter_append, filter_name_after_remove,
      List.nil_append]
    simp
  · intro s op h
    cases op with
    | plot n ra dec t =>
        simp only [applyOp, plotObject, distinctNames]
        rw [List.pairwise_append]
        refine ⟨distinctNames_remove _ _ h, List.pairwise_singleton _ _, ?_⟩
        intro a ha b hb
        have hne := (List.mem_filter.mp ha).2
        simp only [bne_iff_ne, ne_eq] at hne
        have hbn : b.name = n := by
          simp only [List.mem_singleton] at hb
          rw [hb]
        rw [hbn]
        exact hne
    | wheel d => exact h
    | zoomInBtn => exact h
    | zoomOutBtn => exact h
    | clear => exact List.Pairwise.nil
    | reset => exact h
    | pan dx dy => exact h
    | toggle => exact h

/-- Witness for C6: plotting Vega on the initial viewport leaves exactly
its own entry under the name Vega, and clearing an initially
duplicate-free list keeps it duplicate-free. -/
theorem plottedObjects_unique_per_name_witness :
    ((plotObject demoState ("Vega") 18.62 38.8 ("Star")).plottedObjects.filter
        (fun o => o.name == ("Vega")) =
      [{ name := ("Vega"), ra := 18.62, dec := 38.8, type := ("Star") }]) ∧
      distinctNames (applyOp demoState Op.clear).plottedObjects :=
  ⟨plottedObjects_unique_per_name.1 demoState ("Vega") 18.62 38.8 ("Star"),
    plottedObjects_unique_per_name.2 demoState Op.clear
      (by simp [demoState, distinctNames])⟩

/-- The candidate filter of generateConstellationLines (src/starMap.js
line 178): magnitude below 2.0, a truthy (non-empty) name, and not the
synthetic Star_ prefix. -/
noncomputable def brightStars (stars : List Star) : List Star :=
  stars.filter fun s =>
    decide (s.mag < 2.0) && !(s.name == "") && !(String.startsWith s.name ("Star_"))

/-- The unordered index pairs i < j visited by the nested loops of
generateConstellationLines (src/starMap.js lines 180-181). -/
def orderedPairs {α : Type} : List α → List (α × α)
  | [] => []
  | x :: xs => (xs.map fun y => (x, y)) ++ orderedPairs xs

/-- The angular distance of src/starMap.js lines 186-194: spherical law of
cosines with RA converted from hours via ra times 15 degrees, result in
degrees. -/
noncomputable def angularDist (s1 s2 : Star) : ℝ :=
  let ra1 := s1.ra * 15 * Real.pi / 180
  let dec1 := s1.dec * Real.pi / 180
  let ra2 := s2.ra * 15 * Real.pi / 180
  let dec2 := s2.dec * Real.pi / 180
  Real.arccos (Real.sin dec1 * Real.sin dec2 +
      Real.cos dec1 * Real.cos dec2 * Real.cos (ra1 - ra2)) * 180 / Real.pi

/-- generateConstellationLines from src/starMap.js lines 175-203, as a
function of the star catalog it reads. -/
noncomputable def generateConstellationLines (stars : List Star) : List Edge :=
  ((orderedPairs (brightStars stars)).filter
      fun p => decide (angularDist p.1 p.2 < 30)).map
    fun p => { star1 := p.1, star2 := p.2 }

lemma mem_orderedPairs {α : Type} {l : List α} {p : α × α}
    (hp : p ∈ orderedPairs l) : p.1 ∈ l ∧ p.2 ∈ l := by
  induction l with
  | nil => simp [orderedPairs] at hp
  | cons x xs ih =>
      simp only [orderedPairs, List.mem_append, List.mem_map] at hp
      rcases hp with ⟨y, hy, hxy⟩ | hrec
      · rw [← hxy]
        exact ⟨List.mem_cons_self _ _, List.mem_cons_of_mem _ hy⟩
      · have h := ih hrec
        exact ⟨List.mem_cons_of_mem _ h.1, List.mem_cons_of_mem _ h.2⟩

lemma mem_brightStars {stars : List Star} {s : Star}
    (hs : s ∈ brightStars stars) :
    s.mag < 2.0 ∧ s.name ≠ "" ∧ ¬ String.startsWith s.name ("Star_") := by
  have h := (List.mem_filter.mp hs).2
  simp only [Bool.and_eq_true, decide_eq_true_eq, Bool.not_eq_true',
    beq_eq_false_iff_ne, ne_eq, Bool.not_eq_true] at h
  exact ⟨h.1.1, h.1.2, by simp [h.2]⟩

/-- C3: every edge of the constellation graph joins two catalog points
that both have magnitude below 2.0 and a real (non-empty, non-synthetic)
name, and whose angular distance under the spherical law of cosines is
strictly below 30 degrees; consequently no pair at distance at least 30
degrees is ever connected. -/
theorem generateConstellationLines_sound (stars : List Star) (e : Edge)
    (he : e ∈ generateConstellationLines stars) :
    e.star1.mag < 2.0 ∧ e.star1.name ≠ "" ∧
      ¬ String.startsWith e.star1.name ("Star_") ∧
      e.star2.mag < 2.0 ∧ e.star2.name ≠ "" ∧
      ¬ String.startsWith e.star2.name ("Star_") ∧
      angularDist e.star1 e.star2 < 30 ∧
      ¬ 30 ≤ angularDist e.star1 e.star2 := by
  simp only [generateConstellationLines, List.mem_map] at he
  obtain ⟨p, hp, hpe⟩ := he
  have hfilter := List.mem_filter.mp hp
  have hmem := mem_orderedPairs hfilter.1
  have hdist : angularDist p.1 p.2 < 30 := by
    have h := hfilter.2
    simpa using h
  have h1 := mem_brightStars hmem.1
  have h2 := mem_brightStars hmem.2
  have hs1 : e.star1 = p.1 := by rw [← hpe]
  have hs2 : e.star2 = p.2 := by rw [← hpe]
  rw [hs1, hs2]
  exact ⟨h1.1, h1.2.1, h1.2.2, h2.1, h2.2.1, h2.2.2, hdist, not_le.mpr hdist⟩

/-- Two coincident test stars: bright enough, really named, at zero
angular separation, so the graph must connect them. -/
def starA : Star := { name := "A", ra := 0, dec := 0, mag := 0 }

/-- Second coincident test star. -/
def starB : Star := { name := "B", ra := 0, dec := 0, mag := 0 }

lemma angularDist_starA_starB : angularDist starA starB = 0 := by
  simp [angularDist, starA, starB, Real.arccos_one]

lemma brightStars_AB : brightStars [starA, starB] = [starA, starB] := by
  have h0 : decide ((0 : ℝ) < 2.0) = true := by
    rw [decide_eq_true_eq]
    norm_num
  have hsA : String.startsWith "A" ("Star_") = false := by decide
  have hsB : String.startsWith "B" ("Star_") = false := by decide
  simp [brightStars, starA, starB, List.filter, h0, hsA, hsB]

lemma edge_mem_AB :
    ({ star1 := starA, star2 := starB } : Edge) ∈
      generateConstellationLines [starA, starB] := by
  simp only [generateConstellationLines, brightStars_AB]
  have hpairs : orderedPairs [starA, starB] = [(starA, starB)] := rfl
  rw [hpairs]
  have hd : decide (angularDist starA starB < 30) = true := by
    rw [decide_eq_true_eq, angularDist_starA_starB]
    norm_num
  simp [List.filter, hd]

/-- Witness for C3: on the two-star catalog above, the edge between the
coincident stars is produced, and the soundness conditions hold of it. -/
theorem generateConstellationLines_sound_witness :
    (({ star1 := starA, star2 := starB } : Edge) ∈
        generateConstellationLines [starA, starB]) ∧
      (starA.mag < 2.0 ∧ starA.name ≠ "" ∧
        ¬ String.startsWith starA.name ("Star_") ∧
        starB.mag < 2.0 ∧ starB.name ≠ "" ∧
        ¬ String.startsWith starB.name ("Star_") ∧
        angularDist starA starB < 30 ∧
        ¬ 30 ≤ angularDist starA starB) :=
  ⟨edge_mem_AB,
    generateConstellationLines_sound [starA, starB]
      { star1 := starA, star2 := starB } edge_mem_AB⟩

end StarMapJS
